import Mathlib

/-!
Verification development for the EuPago payment plugin's webhook ingestion and
payment-state reconciliation pipeline (src/eupago/views.py, src/eupago/payment.py).

The embedding models the host platform's `OrderPayment` entity (state, info JSON
blob, and the `confirm()`/`fail()` transition API) and translates the webhook
dispatcher, payment locator, status mapping, reconciliation handlers, signature
verifier and payload decryptor from the source. Cryptographic primitives
(SHA-256, HMAC-SHA256, AES-CBC block decryption) and the JSON parser are taken
as parameters of an environment structure, since the code treats them as black
boxes; the byte-level encodings the code manipulates directly (UTF-8, base64,
hex, PKCS#7 padding) are implemented concretely.

Payment `info` is stored by the code as a JSON string and parsed on each use;
the model represents it by its parsed JSON object (serialisation with
`jsonDumps` and parsing round-trip), which is faithful for every value the
modelled operations ever write.
-/

namespace EuPago

/-- JSON values as produced by `json.loads`. Numbers are modelled as integers
(the fields the pipeline inspects are strings and the occasional integer
reference). -/
inductive Json where
  | null
  | bool (b : Bool)
  | num (n : Int)
  | str (s : String)
  | arr (xs : List Json)
  | obj (fs : List (String × Json))
deriving Repr

/-- Top-level JSON object, i.e. a Python dict as used for payment `info` and
webhook payloads. -/
abbrev Dict := List (String × Json)

/-- Python dict lookup `d.get(k)`. -/
def dictGet (d : Dict) (k : String) : Option Json :=
  (d.find? (fun kv => kv.1 == k)).map (fun kv => kv.2)

/-- Python dict assignment `d[k] = v`: overwrite in place if the key exists,
else append (insertion order preserved, as in Python). -/
def dictSet (d : Dict) (k : String) (v : Json) : Dict :=
  if d.any (fun kv => kv.1 == k) then
    d.map (fun kv => if kv.1 == k then (k, v) else kv)
  else
    d ++ [(k, v)]

/-- Python dict merge `\x7b**a, **b\x7d`: entries of `b` inserted into `a` in
order, with `b`'s values winning on key collision. -/
def dictMerge (a b : Dict) : Dict :=
  b.foldl (fun acc kv => dictSet acc kv.1 kv.2) a

/-- Python truthiness of a JSON value (`bool(x)`). -/
def jTruthy : Json → Bool
  | Json.null => false
  | Json.bool b => b
  | Json.num n => n != 0
  | Json.str s => s != ""
  | Json.arr xs => !xs.isEmpty
  | Json.obj fs => !fs.isEmpty

/-- Python truthiness of a value that may be absent (`None` is falsy). -/
def oTruthy : Option Json → Bool
  | some v => jTruthy v
  | none => false

/-- Python `a or b` on possibly-absent JSON values: returns `a` when truthy,
otherwise `b`. -/
def jOr (a b : Option Json) : Option Json :=
  if oTruthy a then a else b

mutual

/-- Serialisation of a JSON value in the format of Python's `json.dumps`
(default separators `", "` and `": "`). String escaping is not modelled: the
identifiers and payload fields the pipeline handles contain no characters that
`json.dumps` would escape. -/
def jsonDumps : Json → String
  | Json.null => "null"
  | Json.bool true => "true"
  | Json.bool false => "false"
  | Json.num n => toString n
  | Json.str s => "\"" ++ s ++ "\""
  | Json.arr xs => "[" ++ jsonDumpsList xs ++ "]"
  | Json.obj fs => "\x7b" ++ jsonDumpsFields fs ++ "\x7d"

/-- Comma-separated serialisation of array elements. -/
def jsonDumpsList : List Json → String
  | [] => ""
  | [x] => jsonDumps x
  | x :: xs => jsonDumps x ++ ", " ++ jsonDumpsList xs

/-- Comma-separated serialisation of object fields. -/
def jsonDumpsFields : List (String × Json) → String
  | [] => ""
  | [(k, v)] => "\"" ++ k ++ "\": " ++ jsonDumps v
  | (k, v) :: fs => "\"" ++ k ++ "\": " ++ jsonDumps v ++ ", " ++ jsonDumpsFields fs

end

/-- Python `str()` of a JSON value, as applied by the payment locator to the
identifier and reference it scans for. Container values are approximated by
their JSON serialisation (the locator is only ever reached with string or
numeric values: a non-string identifier raises before the scan runs). -/
def pyStr : Json → String
  | Json.null => "None"
  | Json.bool true => "True"
  | Json.bool false => "False"
  | Json.num n => toString n
  | Json.str s => s
  | v => jsonDumps v

/-- Substring containment on lists (`needle` occurs inside `hay`). -/
def listContainsSub [BEq α] : List α → List α → Bool
  | [], needle => needle.isEmpty
  | hay@(_ :: t), needle => needle.isPrefixOf hay || listContainsSub t needle

/-- Python's `needle in hay` substring test on strings. -/
def strContains (hay needle : String) : Bool :=
  listContainsSub hay.toList needle.toList

/-- Python's `s.startswith(pre)`. -/
def strStartsWith (s pre : String) : Bool :=
  pre.toList.isPrefixOf s.toList

/-- Python's `s.endswith(suf)`. -/
def strEndsWith (s suf : String) : Bool :=
  suf.toList.isSuffixOf s.toList

/-- Python's `s.strip()` (whitespace on both ends). -/
def strTrim (s : String) : String :=
  ((s.toList.dropWhile Char.isWhitespace).reverse.dropWhile Char.isWhitespace).reverse.asString

/-- Python's `s.lower()` (ASCII case folding suffices for the status tokens
the dispatcher lowercases). -/
def strToLower (s : String) : String :=
  (s.toList.map Char.toLower).asString

/-- Python's `int(s)` on a decimal string, as Django coerces a `local_id`
lookup value; `none` models `ValueError`. -/
def pyToNat (s : String) : Option Nat :=
  if !s.toList.isEmpty && s.toList.all Char.isDigit then
    some (s.toList.foldl (fun a c => a * 10 + (c.toNat - 48)) 0)
  else none

/-- Auxiliary for `splitFirst`: split a character list at the first occurrence
of `sep`, returning the parts before and after it. -/
def splitFirstAux (sep : List Char) : List Char → Option (List Char × List Char)
  | [] => none
  | hay@(c :: t) =>
      if sep.isPrefixOf hay then some ([], hay.drop sep.length)
      else (splitFirstAux sep t).map (fun ab => (c :: ab.1, ab.2))

/-- Python's `s.split(sep, 1)` restricted to the case where `sep` occurs:
returns the parts before and after the first occurrence. -/
def splitFirst (s sep : String) : Option (String × String) :=
  (splitFirstAux sep.toList s.toList).map (fun ab => (ab.1.asString, ab.2.asString))

/-! ## Byte-level encodings

Bytes are `Nat` values below 256. -/

/-- UTF-8 encoding of one character (`Char` excludes surrogates by
construction, so every scalar value encodes). -/
def charUtf8 (c : Char) : List Nat :=
  let n := c.toNat
  if n < 0x80 then [n]
  else if n < 0x800 then [0xC0 + n / 64, 0x80 + n % 64]
  else if n < 0x10000 then [0xE0 + n / 4096, 0x80 + (n / 64) % 64, 0x80 + n % 64]
  else [0xF0 + n / 262144, 0x80 + (n / 4096) % 64, 0x80 + (n / 64) % 64, 0x80 + n % 64]

/-- Python's `s.encode('utf-8')`. -/
def utf8Encode (s : String) : List Nat :=
  s.toList.flatMap charUtf8

/-- Whether a byte is a UTF-8 continuation byte (`0x80`–`0xBF`). -/
def utf8Cont (b : Nat) : Bool :=
  0x80 ≤ b && b ≤ 0xBF

/-- Strict UTF-8 decoding to a character list; `none` on any malformed
sequence (following the table of valid lead/continuation byte ranges, which
rejects overlong forms and surrogates as CPython's decoder does). -/
def utf8DecodeAux : List Nat → Option (List Char)
  | [] => some []
  | b :: rest =>
    if b < 0x80 then
      (utf8DecodeAux rest).map (fun cs => Char.ofNat b :: cs)
    else if b < 0xC2 then none
    else if b ≤ 0xDF then
      match rest with
      | c1 :: r =>
          if utf8Cont c1 then
            (utf8DecodeAux r).map (fun cs => Char.ofNat ((b - 0xC0) * 64 + (c1 - 0x80)) :: cs)
          else none
      | [] => none
    else if b ≤ 0xEF then
      match rest with
      | c1 :: c2 :: r =>
          let lo1 := if b = 0xE0 then 0xA0 else 0x80
          let hi1 := if b = 0xED then 0x9F else 0xBF
          if (lo1 ≤ c1 && c1 ≤ hi1) && utf8Cont c2 then
            (utf8DecodeAux r).map (fun cs =>
              Char.ofNat ((b - 0xE0) * 4096 + (c1 - 0x80) * 64 + (c2 - 0x80)) :: cs)
          else none
      | _ => none
    else if b ≤ 0xF4 then
      match rest with
      | c1 :: c2 :: c3 :: r =>
          let lo1 := if b = 0xF0 then 0x90 else 0x80
          let hi1 := if b = 0xF4 then 0x8F else 0xBF
          if (lo1 ≤ c1 && c1 ≤ hi1) && (utf8Cont c2 && utf8Cont c3) then
            (utf8DecodeAux r).map (fun cs =>
              Char.ofNat ((b - 0xF0) * 262144 + (c1 - 0x80) * 4096 + (c2 - 0x80) * 64 + (c3 - 0x80)) :: cs)
          else none
      | _ => none
    else none

/-- Python's `bytes.decode('utf-8')`: `none` models `UnicodeDecodeError`. -/
def utf8Decode (bs : List Nat) : Option String :=
  (utf8DecodeAux bs).map List.asString

/-- The standard base64 alphabet. -/
def b64Alphabet : List Char :=
  "ABCDEFGHIJKLMNOPQRSTUVWXYZabcdefghijklmnopqrstuvwxyz0123456789+/".toList

/-- Index of a character in the base64 alphabet, if any. -/
def b64Index (c : Char) : Option Nat :=
  b64Alphabet.indexOf? c |>.map id

/-- Decode a list of 6-bit values (the non-padding base64 characters) into
bytes: groups of four give three bytes; a trailing pair or triple gives one or
two bytes. -/
def b64Bytes : List Nat → List Nat
  | a :: b :: c :: d :: rest =>
      (a * 4 + b / 16) :: ((b % 16) * 16 + c / 4) :: ((c % 4) * 64 + d) :: b64Bytes rest
  | [a, b] => [a * 4 + b / 16]
  | [a, b, c] => [a * 4 + b / 16, (b % 16) * 16 + c / 4]
  | _ => []

/-- Python's `base64.b64decode` with its default lenient mode: characters
outside the alphabet (other than `=`) are discarded, the remaining length must
be a multiple of four, and `=` only pads at the end. `none` models
`binascii.Error`. -/
def b64decode (s : String) : Option (List Nat) :=
  let cs := s.toList.filter (fun c => (b64Index c).isSome || c == '=')
  let data := cs.takeWhile (fun c => c != '=')
  if cs.length % 4 != 0 then none
  else if data.length % 4 == 1 then none
  else some (b64Bytes (data.map (fun c => (b64Index c).getD 0)))

/-- Hexadecimal digit characters (lowercase, as produced by `bytes.hex()` and
`hexdigest()`). -/
def hexDigit (n : Nat) : Char :=
  "0123456789abcdef".toList.getD (n % 16) '0'

/-- Lowercase hexadecimal encoding of a byte list, as produced by Python's
`hmac.new(...).hexdigest()`. -/
def hexEncode (bs : List Nat) : List Char :=
  bs.flatMap (fun b => [hexDigit (b / 16), hexDigit b])

/-- PKCS#7 unpadding as implemented by `Crypto.Util.Padding.unpad` with a
16-byte block: `none` models `ValueError` (bad length or bad padding). -/
def pkcs7Unpad (d : List Nat) : Option (List Nat) :=
  if d.length % 16 != 0 then none
  else
    match d.getLast? with
    | none => none
    | some p =>
        if p = 0 || p > 16 then none
        else if d.length < p then none
        else if (d.drop (d.length - p)).all (fun b => b == p) then
          some (d.take (d.length - p))
        else none

/-- Strip trailing zero bytes (`bytes.rstrip(b'\x00')`). -/
def rstripZero (d : List Nat) : List Nat :=
  (d.reverse.dropWhile (fun b => b == 0)).reverse

/-! ## Data model -/

/-- The host platform's payment states (`OrderPayment.PAYMENT_STATE_*`). -/
inductive PaymentState where
  | created
  | pending
  | confirmed
  | canceled
  | failed
  | refunded
deriving DecidableEq, Repr

/-- A host `OrderPayment` row as the core reads and mutates it. `info` is the
parsed form of the JSON string the code stores; `confirmCalls` is a ghost
counter of how many times the host's `confirm()` fulfilment side effect has
fired for this payment. -/
structure Payment where
  orderCode : String
  localId : Nat
  provider : String
  state : PaymentState
  info : Dict
  confirmCalls : Nat
deriving Repr

/-- Modelled from the spec: the host's `confirm()`/`fail()` state-transition
API is out of scope of src/ (pretix provides it). `confirm()` transitions to
Confirmed and fires the order-fulfilment side effects; `fail(info=...)`
transitions to Failed attaching the payload; either call may raise a host-side
exception, modelled by these two flags. -/
structure Host where
  confirmThrows : Bool
  failThrows : Bool

/-- Modelled from the spec: `payment.confirm()` — transitions the payment to
Confirmed, persisting pending field assignments, and fires the fulfilment side
effect (ghost-counted). Callers must consult `Host.confirmThrows` first. -/
def hostConfirm (p : Payment) : Payment :=
  { p with state := PaymentState.confirmed, confirmCalls := p.confirmCalls + 1 }

/-- Environment of primitives the code calls but does not implement:
cryptographic functions, the JSON parser, the clock, and the
operator-configured settings the pipeline reads. -/
structure Env where
  /-- `hmac.new(key, msg, hashlib.sha256).digest()`. -/
  hmacSha256 : List Nat → List Nat → List Nat
  /-- `hashlib.sha256(data).digest()`. -/
  sha256 : List Nat → List Nat
  /-- Raw AES-CBC decryption `AES.new(key, AES.MODE_CBC, iv).decrypt(ct)`,
  applied only after the library's argument checks pass. -/
  aesCbcDecrypt : List Nat → List Nat → List Nat → List Nat
  /-- `json.loads`; `none` models `json.JSONDecodeError`. -/
  jsonLoads : String → Option Json
  /-- `timezone.now().isoformat()`. -/
  nowIso : String
  /-- `provider.get_setting('webhook_secret')` (empty string when not
  configured). -/
  webhookSecret : String
  /-- Result of the webhook-secret fallback chain the dispatcher runs before
  decryption (organizer settings under several key names, then the
  `EUPAGO_WEBHOOK_SECRET` environment variable, then the local secret file;
  views.py lines 364–407): first non-empty value, or empty when none. -/
  chainSecret : String
  /-- `provider.debug_mode`. -/
  debugMode : Bool
  /-- Host-side behaviour of `confirm()`/`fail()`. -/
  host : Host

/-! ## Signature verifier — `payment.py::_validate_webhook_signature` -/

/-- Translation of `EuPagoBasePaymentProvider._validate_webhook_signature`
(payment.py lines 207–256): empty secret bypasses verification; empty
signature is rejected; the message is the top-level string `data` field when
present, otherwise the whole raw body; the header is base64-decoded and
compared against the raw HMAC-SHA256 digest. -/
def _validate_webhook_signature (env : Env) (payload : String) (signature : String) : Bool :=
  let webhookSecret := env.webhookSecret
  if webhookSecret = "" then true
  else if signature = "" then false
  else
    let msgBytes :=
      match env.jsonLoads payload with
      | some (Json.obj body) =>
          match dictGet body "data" with
          | some (Json.str d) => utf8Encode d
          | _ => utf8Encode payload
      | _ => utf8Encode payload
    let expectedBin := env.hmacSha256 (utf8Encode webhookSecret) msgBytes
    match b64decode signature with
    | none => false
    | some receivedBin => expectedBin == receivedBin

/-! ## Status mapping — `payment.py::process_webhook_payment_update` -/

/-- Success tokens (payment.py line 394). -/
def successStatuses : List String := ["Success", "Sucesso", "completed", "paid"]

/-- Failure tokens (payment.py line 400). -/
def failedStatuses : List String := ["Failed", "Falhado", "failed", "error"]

/-- Pending tokens (payment.py line 406). -/
def pendingStatuses : List String := ["Pending", "Pendente", "pending", "processing"]

/-- Cancellation tokens (payment.py line 415). -/
def canceledStatuses : List String := ["Canceled", "Cancelado", "canceled", "cancelled"]

/-- Canonical outcomes distinguished by `process_webhook_payment_update`'s
`elif` chain. The source has no Expired branch; anything outside the four
token lists (including non-string statuses) falls into `unknown`. -/
inductive Outcome where
  | completed
  | failed
  | pending
  | cancelled
  | unknown
deriving DecidableEq, Repr

/-- The status value examined by the chain: `Python x in [tokens]` is only
true for string values equal to a listed token. -/
def statusToken : Option Json → Option String
  | some (Json.str s) => some s
  | _ => none

/-- The mapping realised by the `elif` chain of
`process_webhook_payment_update` (payment.py lines 394–424), in source order:
success, failed, pending, canceled, otherwise unknown. Comparison is exact
(case-sensitive) string equality. -/
def webhookStatusOutcome (status : Option Json) : Outcome :=
  match statusToken status with
  | none => Outcome.unknown
  | some s =>
      if successStatuses.contains s then Outcome.completed
      else if failedStatuses.contains s then Outcome.failed
      else if pendingStatuses.contains s then Outcome.pending
      else if canceledStatuses.contains s then Outcome.cancelled
      else Outcome.unknown

/-- Status extraction of `process_webhook_payment_update` (payment.py line
386): `webhook_data.get('status') or webhook_data.get('transactionStatus') or
webhook_data.get('estado')`. -/
def webhookStatusField (webhookData : Dict) : Option Json :=
  jOr (jOr (dictGet webhookData "status") (dictGet webhookData "transactionStatus"))
    (dictGet webhookData "estado")

/-- Translation of `process_webhook_payment_update` (payment.py lines
380–429). Returns `(statusChanged, persisted payment)`. The in-memory
assignment `payment.info = json.dumps(webhook_data)` is only persisted by the
branches that call `save()`, `confirm()` or `fail()`; a host exception is
caught by the function's own handler, which returns `False` (lines 427–429). -/
def process_webhook_payment_update (host : Host) (p : Payment) (webhookData : Dict) :
    Bool × Payment :=
  let currentState := p.state
  let status := webhookStatusField webhookData
  match webhookStatusOutcome status with
  | Outcome.completed =>
      if currentState ≠ PaymentState.confirmed then
        if host.confirmThrows then (false, p)
        else (true, hostConfirm { p with info := webhookData })
      else (false, p)
  | Outcome.failed =>
      if currentState ≠ PaymentState.failed ∧ currentState ≠ PaymentState.canceled then
        if host.failThrows then (false, p)
        else (true, { p with state := PaymentState.failed, info := webhookData })
      else (false, p)
  | Outcome.pending =>
      if currentState = PaymentState.created then
        (true, { p with state := PaymentState.pending, info := webhookData })
      else (false, { p with info := webhookData })
  | Outcome.cancelled =>
      if currentState ≠ PaymentState.canceled then
        (true, { p with state := PaymentState.canceled, info := webhookData })
      else (false, p)
  | Outcome.unknown => (false, { p with info := webhookData })

/-! ## Reconciliation handlers — `views.py` -/

/-- Translation of `_handle_payment_completed` (views.py lines 656–698). The
whole body sits inside a `try/except` that only logs, so the function never
raises: when `confirm()` raises, the already-saved info write (merged payload
plus `webhook_confirmed_at` stamp) stays persisted and the state is left
unchanged. -/
def _handle_payment_completed (host : Host) (now : String) (p : Payment) (data : Dict) :
    Payment :=
  if p.state = PaymentState.confirmed ∨ p.state = PaymentState.refunded then p
  else
    let existingInfo := p.info
    let merged := dictSet (dictMerge existingInfo data) "webhook_confirmed_at" (Json.str now)
    let p1 := { p with info := merged }
    if host.confirmThrows then p1
    else hostConfirm p1

/-- Translation of `_handle_payment_failed` (views.py lines 701–709): a
no-op only when already Failed; otherwise `payment.fail(info=data)`, whose
host-side exception propagates to the caller (`Except.error`). -/
def _handle_payment_failed (host : Host) (p : Payment) (data : Dict) :
    Except Unit Payment :=
  if p.state = PaymentState.failed then Except.ok p
  else if host.failThrows then Except.error ()
  else Except.ok { p with state := PaymentState.failed, info := data }

/-- Translation of `_handle_payment_cancelled` (views.py lines 712–723): a
no-op only when already Canceled; otherwise sets state to Canceled and
replaces info with the payload. -/
def _handle_payment_cancelled (p : Payment) (data : Dict) : Payment :=
  if p.state = PaymentState.canceled then p
  else { p with state := PaymentState.canceled, info := data }

/-- Translation of `_handle_payment_expired` (views.py lines 726–737):
identical to the cancelled handler (Expired is stored as Canceled). -/
def _handle_payment_expired (p : Payment) (data : Dict) : Payment :=
  if p.state = PaymentState.canceled then p
  else { p with state := PaymentState.canceled, info := data }

/-- Translation of `_handle_payment_pending` (views.py lines 740–747): when
the state is not Created, info is replaced and the state kept; when the state
is Created the function does nothing at all. -/
def _handle_payment_pending (p : Payment) (data : Dict) : Payment :=
  if p.state ≠ PaymentState.created then { p with info := data } else p

/-! ## Payment locator — `views.py::_find_payment_by_identifiers` -/

/-- The bounded fallback scan (views.py lines 553–599): the 50 most recent
payments of the `eupago` provider family (the database list is ordered
newest-first, matching `.order_by('-created')`), searched for a textual
occurrence of the needle in the serialised info JSON. Returns the index into
the full list. -/
def scanCandidates (db : List Payment) (needle : String) : Option Nat :=
  let candidates := ((db.enum).filter (fun ip => strStartsWith ip.2.provider "eupago")).take 50
  (candidates.find? (fun ip => strContains (jsonDumps (Json.obj ip.2.info)) needle)).map
    (fun ip => ip.1)

/-- Translation of `_find_payment_by_identifiers` (views.py lines 530–610),
returning the index of the located payment. The body is wrapped in a
`try/except` returning `None`: a truthy non-string identifier raises
`TypeError` at the `'-P-' in identifier` test, so the whole lookup (including
the reference branch) yields `None`. A `local_id` that does not parse as an
integer raises inside the primary query's `try` (caught at line 550) and falls
through to the scan. -/
def _find_payment_by_identifiers (db : List Payment) (identifier reference : Option Json) :
    Option Nat :=
  let byIdentifier : Option (Option Nat) :=
    if oTruthy identifier then
      match identifier with
      | some (Json.str idS) =>
          let primary : Option Nat :=
            if strContains idS "-P-" then
              match splitFirst idS "-P-" with
              | some (orderCode, localIdS) =>
                  match pyToNat localIdS with
                  | some localId =>
                      ((db.enum).find? (fun ip =>
                        ip.2.orderCode == orderCode && ip.2.localId == localId &&
                          strStartsWith ip.2.provider "eupago")).map (fun ip => ip.1)
                  | none => none
              | none => none
            else none
          some (match primary with
                | some i => some i
                | none => scanCandidates db idS)
      | _ => none
    else some none
  match byIdentifier with
  | none => none
  | some (some i) => some i
  | some none =>
      if oTruthy reference then
        match reference with
        | some r => scanCandidates db (pyStr r)
        | none => none
      else none

/-! ## Payload decryptor — `views.py::_decrypt_webhook_data` -/

/-- Pad with zero bytes or truncate to 32 bytes (`ljust(32, b'\x00')` /
`[:32]`), used for the direct-key derivation and the IV-as-key fallback. -/
def to32 (bs : List Nat) : List Nat :=
  if bs.length < 32 then bs ++ List.replicate (32 - bs.length) 0 else bs.take 32

/-- One guarded AES-CBC decryption: `AES.new` validates the key and IV lengths
and `decrypt` requires a ciphertext that is a multiple of the block size;
`none` models the `ValueError` those checks raise. -/
def aesTry (env : Env) (key iv ct : List Nat) : Option (List Nat) :=
  if key.length = 32 && iv.length = 16 && ct.length % 16 == 0 then
    some (env.aesCbcDecrypt key iv ct)
  else none

/-- The operational JSON-shape test the decryptor applies (views.py lines
1505, 1536, 1563): trimmed string starts with a left brace and ends with a
right brace. Bracketed arrays are not accepted by this test. -/
def jsonLike (s : String) : Bool :=
  strStartsWith (strTrim s) "\x7b" && strEndsWith (strTrim s) "\x7d"

/-- The last-resort attempt of `_decrypt_webhook_data` (views.py lines
1543–1568): the IV itself, padded to 32 bytes, used as key; PKCS#7 unpadding
falls back to the raw bytes, and the result is returned only when it decodes
as UTF-8 and looks like a JSON object. An empty decryption result makes
`unpad` raise `IndexError`, caught by the surrounding bare `except`, falling
through to `None`. -/
def decryptAttempt3 (env : Env) (ivBytes ct : List Nat) : Option String :=
  let ivKey := to32 ivBytes
  match aesTry env ivKey ivBytes ct with
  | none => none
  | some dp3 =>
      if dp3.isEmpty then none
      else
        let dec3 := (pkcs7Unpad dp3).getD dp3
        match utf8Decode dec3 with
        | some s => if jsonLike s then some s else none
        | none => none

/-- Attempts two and three of `_decrypt_webhook_data` (views.py lines
1517–1576): the direct (zero-padded/truncated) key, then the IV-as-key last
resort. In both, PKCS#7 unpadding falls back to the raw bytes, and the result
is returned only when it decodes as UTF-8 and looks like a JSON object. An
empty decryption result makes `unpad` raise `IndexError`, which escapes the
`ValueError` handlers and aborts to `None`. -/
def decryptAttempts23 (env : Env) (keyDirect ivBytes ct : List Nat) : Option String :=
  match aesTry env keyDirect ivBytes ct with
  | none => none
  | some dp2 =>
      if dp2.isEmpty then none
      else
        let dec2 := (pkcs7Unpad dp2).getD dp2
        let res2 : Option String :=
          match utf8Decode dec2 with
          | some s => if jsonLike s then some s else none
          | none => none
        match res2 with
        | some s => some s
        | none => decryptAttempt3 env ivBytes ct

/-- Translation of `_decrypt_webhook_data` (views.py lines 1352–1580). The
`webhookSecret` argument is the value resolved by the caller's fallback chain
(the function's own re-resolution, lines 1377–1433, would yield the same
value, so an empty argument means no secret is configured anywhere and the
function returns `None`). On the first (SHA-256-derived key) attempt the
result is returned as soon as it decodes as UTF-8, whether or not it looks
like JSON (lines 1502–1510); the PKCS#7 fallback there additionally strips
trailing NUL bytes when the stripped result starts with a brace or bracket
(lines 1491–1499). -/
def _decrypt_webhook_data (env : Env) (encryptedData iv webhookSecret : String) :
    Option String :=
  if iv = "" then none
  else
    match b64decode iv with
    | none => none
    | some ivBytes =>
        if webhookSecret = "" then none
        else
          let keyFromHash := env.sha256 (utf8Encode webhookSecret)
          let keyDirect := to32 (utf8Encode webhookSecret)
          match b64decode encryptedData with
          | none => none
          | some ct =>
              match aesTry env keyFromHash ivBytes ct with
              | none => decryptAttempts23 env keyDirect ivBytes ct
              | some dp =>
                  if dp.isEmpty then decryptAttempts23 env keyDirect ivBytes ct
                  else
                    let dec :=
                      match pkcs7Unpad dp with
                      | some u => u
                      | none =>
                          if dp.getLast? == some 0 then
                            let stripped := rstripZero dp
                            if !stripped.isEmpty &&
                                (stripped.head? == some 123 || stripped.head? == some 91) then
                              stripped
                            else dp
                          else dp
                    match utf8Decode dec with
                    | some s => some s
                    | none => decryptAttempts23 env keyDirect ivBytes ct

/-! ## Webhook dispatcher — `views.py` -/

/-- An HTTP response as the dispatcher produces it. -/
structure HttpResp where
  status : Nat
  body : String
deriving DecidableEq, Repr

/-- The `transaction.atomic()` block of `_handle_webhook_v2` (views.py lines
503–527): lowercase the raw status, dispatch to the handler, answer 200 `OK`;
any exception escaping the block rolls the payment back and answers 500. A
non-string status value makes `.lower()` raise inside the block. -/
def processWebhookAtomic (env : Env) (p : Payment) (transactionData : Dict) :
    HttpResp × Payment :=
  let statusE : Except Unit String :=
    match dictGet transactionData "status" with
    | none => Except.ok ""
    | some (Json.str s) => Except.ok (strToLower s)
    | some _ => Except.error ()
  match statusE with
  | Except.error _ => (⟨500, "Processing error"⟩, p)
  | Except.ok status =>
      let r : Except Unit Payment :=
        if status = "paid" ∨ status = "success" then
          Except.ok (_handle_payment_completed env.host env.nowIso p transactionData)
        else if ["error", "failed", "failure"].contains status then
          _handle_payment_failed env.host p transactionData
        else if ["cancel", "cancelled"].contains status then
          Except.ok (_handle_payment_cancelled p transactionData)
        else if status = "expired" then
          Except.ok (_handle_payment_expired p transactionData)
        else
          Except.ok { p with info := transactionData }
      match r with
      | Except.ok p1 => (⟨200, "OK"⟩, p1)
      | Except.error _ => (⟨500, "Processing error"⟩, p)

/-- Extraction of the transaction payload (views.py lines 428–441): the first
element of a non-empty `transactions` list, a `transactions` dict itself, or
the whole body when the key is absent; otherwise nothing. -/
def extractTransactionData (eventData : Dict) : Option Json :=
  match dictGet eventData "transactions" with
  | some (Json.arr items) => items.head?
  | some (Json.obj fs) => some (Json.obj fs)
  | some _ => none
  | none => some (Json.obj eventData)

/-- Identifier and reference extraction (views.py lines 443–453): taken from a
nested `transaction` dict when present, else from the payload itself, with the
English field name falling back to the Portuguese one under Python `or`. -/
def extractIds (tf : Dict) : Option Json × Option Json :=
  match dictGet tf "transaction" with
  | some (Json.obj tn) =>
      (jOr (dictGet tn "identifier") (dictGet tn "identificador"),
       jOr (dictGet tn "reference") (dictGet tn "referencia"))
  | _ =>
      (jOr (dictGet tf "identifier") (dictGet tf "identificador"),
       jOr (dictGet tf "reference") (dictGet tf "referencia"))

/-- Translation of `_handle_webhook_v2` (views.py lines 340–527) over a
payment database (newest-first list); returns the response and the resulting
database. The encrypted branch recurses on the decrypted payload, bounded by
`fuel` (Python's recursion limit surfaces as the outer handler's 500); a
decrypted JSON document that is not an object crashes on field access further
down, surfacing as the outer handler's 500 as well. -/
def _handle_webhook_v2 (env : Env) (db : List Payment) (xSig xIV : String) :
    Nat → Dict → String → HttpResp × List Payment
  | 0, _, _ => (⟨500, "Internal error"⟩, db)
  | Nat.succ fuel, eventData, eventBody =>
    match dictGet eventData "data" with
    | some (Json.str encryptedData) =>
        match _decrypt_webhook_data env encryptedData xIV env.chainSecret with
        | some decrypted =>
            match env.jsonLoads decrypted with
            | some (Json.obj fs) => _handle_webhook_v2 env db xSig xIV fuel fs decrypted
            | some _ => (⟨500, "Internal error"⟩, db)
            | none => (⟨400, "Invalid decrypted JSON"⟩, db)
        | none => (⟨400, "Decryption failed"⟩, db)
    | _ =>
      match extractTransactionData eventData with
      | none => (⟨400, "Missing transaction data"⟩, db)
      | some td =>
        if jTruthy td = false then (⟨400, "Missing transaction data"⟩, db)
        else
          match td with
          | Json.obj tf =>
              let ids := extractIds tf
              if oTruthy ids.1 = false ∧ oTruthy ids.2 = false then
                (⟨400, "Missing identifier and reference"⟩, db)
              else
                match _find_payment_by_identifiers db ids.1 ids.2 with
                | none => (⟨200, "Payment not found"⟩, db)
                | some idx =>
                    match db.get? idx with
                    | none => (⟨500, "Internal error"⟩, db)
                    | some payment =>
                        if xSig ≠ "" ∧ _validate_webhook_signature env eventBody xSig = false ∧
                            env.debugMode = false then
                          (⟨400, "Invalid signature"⟩, db)
                        else
                          let rp := processWebhookAtomic env payment tf
                          (rp.1, db.set idx rp.2)
          | _ => (⟨500, "Internal error"⟩, db)

/-- Translation of `_handle_webhook_v1` (views.py lines 613–653): the legacy
flat-parameter protocol. All three of `referencia`, `identificador`, `valor`
must be present; a located payment is unconditionally treated as completed. -/
def _handle_webhook_v1 (env : Env) (db : List Payment) (params : List (String × String)) :
    HttpResp × List Payment :=
  let requiredParams := ["referencia", "identificador", "valor"]
  let missing := requiredParams.filter (fun k => !(params.any (fun kv => kv.1 == k)))
  if !missing.isEmpty then
    (⟨400, "Missing parameters: " ++ String.intercalate ", " missing⟩, db)
  else
    let identifier := (params.find? (fun kv => kv.1 == "identificador")).map
      (fun kv => Json.str kv.2)
    let reference := (params.find? (fun kv => kv.1 == "referencia")).map
      (fun kv => Json.str kv.2)
    match _find_payment_by_identifiers db identifier reference with
    | none => (⟨200, "Payment not found"⟩, db)
    | some idx =>
        match db.get? idx with
        | none => (⟨500, "Internal error"⟩, db)
        | some payment =>
            let paramsDict : Dict := params.map (fun kv => (kv.1, Json.str kv.2))
            let p1 := _handle_payment_completed env.host env.nowIso payment paramsDict
            (⟨200, "OK"⟩, db.set idx p1)

/-! ## Concrete fixtures for witnesses and counterexamples -/

/-- A host whose `confirm()` and `fail()` succeed. -/
def hostOk : Host := ⟨false, false⟩

/-- A host whose `confirm()` raises (e.g. a quota failure during fulfilment). -/
def hostConfirmRaises : Host := ⟨true, false⟩

/-- A host whose `fail()` raises. -/
def hostFailRaises : Host := ⟨false, true⟩

/-- A concrete environment with placeholder primitives, a configured webhook
secret and debug mode off. -/
def baseEnv : Env where
  hmacSha256 := fun _ _ => List.replicate 32 0
  sha256 := fun _ => List.replicate 32 0
  aesCbcDecrypt := fun _ _ _ => []
  jsonLoads := fun _ => none
  nowIso := "2025-09-26T01:07:55"
  webhookSecret := "test_secret"
  chainSecret := "test_secret"
  debugMode := false
  host := hostOk

/-- A pending payment of the eupago provider family whose info records the
gateway reference `217404`. -/
def pendingP : Payment :=
  ⟨"ABC12", 3, "eupago_mbway", PaymentState.pending, [("referencia", Json.str "217404")], 0⟩

/-- A confirmed payment (terminal-success state). -/
def confirmedP : Payment :=
  ⟨"ABC12", 3, "eupago_cc", PaymentState.confirmed, [("k", Json.str "v")], 1⟩

/-- A refunded payment (terminal-success state). -/
def refundedP : Payment :=
  ⟨"ABC12", 3, "eupago_cc", PaymentState.refunded, [("k", Json.str "v")], 1⟩

/-- A freshly created payment. -/
def createdP : Payment :=
  ⟨"ABC12", 3, "eupago_cc", PaymentState.created, [("k", Json.str "v")], 0⟩

/-- Sixteen bytes that PKCS#7-unpad to the ASCII string `hello`. -/
def helloPadded : List Nat :=
  [104, 101, 108, 108, 111] ++ List.replicate 11 11

/-- Base64 encoding of sixteen zero bytes: a well-formed IV header value and
ciphertext of one AES block. -/
def zeroBlockB64 : String := "AAAAAAAAAAAAAAAAAAAAAA=="

/-- Sixteen bytes that PKCS#7-unpad to the ASCII string `\x7b\x7d`. -/
def bracePadded : List Nat :=
  [123, 125] ++ List.replicate 14 14

/-- `baseEnv` with an AES decryption that yields `helloPadded` on every
block. -/
def envHello : Env := { baseEnv with aesCbcDecrypt := fun _ _ _ => helloPadded }

/-- `baseEnv` with an AES decryption that yields `bracePadded` on every
block. -/
def envBrace : Env := { baseEnv with aesCbcDecrypt := fun _ _ _ => bracePadded }

/-- `baseEnv` with a host whose `confirm()` raises. -/
def envConfirmRaises : Env := { baseEnv with host := hostConfirmRaises }

/-- `baseEnv` with a host whose `fail()` raises. -/
def envFailRaises : Env := { baseEnv with host := hostFailRaises }

/-! ## Helper lemmas -/

/-- Overwriting the binding of a different key does not disturb a `find?`
lookup. -/
theorem find_set_map_ne (d : Dict) (k k' : String) (v : Json) (h : k ≠ k') :
    List.find? (fun kv => kv.1 == k) (d.map (fun kv => if kv.1 == k' then (k', v) else kv)) =
      List.find? (fun kv => kv.1 == k) d := by
  induction d with
  | nil => rfl
  | cons kv rest ih =>
      simp only [List.map_cons]
      by_cases hk' : kv.1 = k'
      · have h1 : ¬(kv.1 = k) := fun hc => h (by rw [← hc, hk'])
        have h2 : ¬((k' : String) = k) := fun hc => h hc.symm
        rw [List.find?_cons_of_neg _ (by simp [hk', h2]),
          List.find?_cons_of_neg _ (by simp [h1]), ih]
      · have e1 : (if (kv.1 == k') = true then (k', v) else kv) = kv := by simp [hk']
        rw [e1]
        by_cases hk : kv.1 = k
        · rw [List.find?_cons_of_pos _ (by simp [hk]),
            List.find?_cons_of_pos _ (by simp [hk])]
        · rw [List.find?_cons_of_neg _ (by simp [hk]),
            List.find?_cons_of_neg _ (by simp [hk]), ih]

/-- Appending a binding for a different key does not disturb a `find?`
lookup. -/
theorem find_append_ne (d : Dict) (k k' : String) (v : Json) (h : k ≠ k') :
    List.find? (fun kv => kv.1 == k) (d ++ [(k', v)]) =
      List.find? (fun kv => kv.1 == k) d := by
  induction d with
  | nil =>
      have h2 : ¬((k' : String) = k) := fun hc => h hc.symm
      simp [h2]
  | cons kv rest ih =>
      by_cases hk : kv.1 = k
      · simp [hk]
      · simp [hk, ih]

/-- Setting a different key does not disturb a lookup. -/
theorem dictGet_dictSet_ne (d : Dict) (k k' : String) (v : Json) (h : k ≠ k') :
    dictGet (dictSet d k' v) k = dictGet d k := by
  unfold dictGet dictSet
  by_cases hmem : d.any (fun kv => kv.1 == k')
  · rw [if_pos hmem, find_set_map_ne d k k' v h]
  · rw [if_neg hmem, find_append_ne d k k' v h]

/-- Merging a dictionary that lacks a key does not disturb that key's
binding. -/
theorem dictGet_dictMerge_of_not_mem (a b : Dict) (k : String)
    (h : ∀ kv ∈ b, kv.1 ≠ k) : dictGet (dictMerge a b) k = dictGet a k := by
  induction b generalizing a with
  | nil => rfl
  | cons kv rest ih =>
      have h1 : kv.1 ≠ k := h kv (List.mem_cons_self kv rest)
      have h2 : ∀ kv' ∈ rest, kv'.1 ≠ k := fun kv' hm => h kv' (List.mem_cons_of_mem kv hm)
      calc dictGet (dictMerge a (kv :: rest)) k
          = dictGet (dictMerge (dictSet a kv.1 kv.2) rest) k := rfl
        _ = dictGet (dictSet a kv.1 kv.2) k := ih (dictSet a kv.1 kv.2) h2
        _ = dictGet a k := dictGet_dictSet_ne a k kv.1 kv.2 (fun hc => h1 hc.symm)

/-- Setting a key makes it readable. -/
theorem dictGet_dictSet_self (d : Dict) (k : String) (v : Json) :
    dictGet (dictSet d k v) k = some v := by
  unfold dictGet dictSet
  by_cases hmem : d.any (fun kv => kv.1 == k)
  · rw [if_pos hmem]
    induction d with
    | nil => simp at hmem
    | cons kv rest ih =>
        simp only [List.map_cons]
        by_cases hk : kv.1 = k
        · rw [if_pos (by simp [hk]), List.find?_cons_of_pos _ (by simp)]
          rfl
        · rw [if_neg (by simp [hk]), List.find?_cons_of_neg _ (by simp [hk])]
          simp only [List.any_cons, Bool.or_eq_true] at hmem
          rcases hmem with hm | hm
          · exact absurd (by simpa using hm) hk
          · exact ih hm
  · rw [if_neg hmem, List.find?_append]
    have hnone : List.find? (fun kv => kv.1 == k) d = none := by
      rw [List.find?_eq_none]
      intro x hx hc
      exact hmem (List.any_eq_true.mpr ⟨x, hx, hc⟩)
    rw [hnone]
    simp

/-- Absence of a key in `dictGet` terms means no entry carries it. -/
theorem dictGet_none_entries (b : Dict) (k : String) (h : dictGet b k = none) :
    ∀ kv ∈ b, kv.1 ≠ k := by
  intro kv hm hc
  unfold dictGet at h
  rcases List.find?_eq_none.mp (Option.map_eq_none.mp h) kv hm with hfalse
  exact hfalse (by simp [hc])

/-- Writing back the element already stored at an index leaves the list
unchanged. -/
theorem list_set_same {α : Type} (l : List α) (i : Nat) (x : α)
    (h : l.get? i = some x) : l.set i x = l := by
  induction l generalizing i with
  | nil => simp at h
  | cons a rest ih =>
      cases i with
      | zero =>
          simp only [List.get?] at h
          cases h
          rfl
      | succ j =>
          simp only [List.get?] at h
          simp [List.set, ih j h]

/-- Dispatch reduction for an unsigned, non-encrypted v2 webhook that locates
a payment: the dispatcher's result is the reconcile step's result. -/
theorem webhookV2_dispatch_reduction
    (env : Env) (db : List Payment) (xIV eventBody : String) (fuel : Nat)
    (eventData tf : Dict) (idx : Nat) (payment : Payment)
    (hdata : ∀ s, dictGet eventData "data" ≠ some (Json.str s))
    (htd : extractTransactionData eventData = some (Json.obj tf))
    (htruthy : jTruthy (Json.obj tf) = true)
    (hids : oTruthy (extractIds tf).1 = true ∨ oTruthy (extractIds tf).2 = true)
    (hfind : _find_payment_by_identifiers db (extractIds tf).1 (extractIds tf).2 = some idx)
    (hget : db.get? idx = some payment) :
    _handle_webhook_v2 env db "" xIV (fuel + 1) eventData eventBody =
      ((processWebhookAtomic env payment tf).1,
        db.set idx (processWebhookAtomic env payment tf).2) := by
  have hid : ¬(oTruthy (extractIds tf).1 = false ∧ oTruthy (extractIds tf).2 = false) := by
    rcases hids with h | h <;> simp [h]
  have hsig : ¬(("" : String) ≠ "" ∧
      _validate_webhook_signature env eventBody "" = false ∧ env.debugMode = false) :=
    fun hc => hc.1 rfl
  have hmain :
      (match extractTransactionData eventData with
        | none => ((⟨400, "Missing transaction data"⟩ : HttpResp), db)
        | some td =>
          if jTruthy td = false then (⟨400, "Missing transaction data"⟩, db)
          else
            match td with
            | Json.obj tf =>
                let ids := extractIds tf
                if oTruthy ids.1 = false ∧ oTruthy ids.2 = false then
                  (⟨400, "Missing identifier and reference"⟩, db)
                else
                  match _find_payment_by_identifiers db ids.1 ids.2 with
                  | none => (⟨200, "Payment not found"⟩, db)
                  | some idx =>
                      match db.get? idx with
                      | none => (⟨500, "Internal error"⟩, db)
                      | some payment =>
                          if ("" : String) ≠ "" ∧
                              _validate_webhook_signature env eventBody "" = false ∧
                              env.debugMode = false then
                            (⟨400, "Invalid signature"⟩, db)
                          else
                            let rp := processWebhookAtomic env payment tf
                            (rp.1, db.set idx rp.2)
            | _ => (⟨500, "Internal error"⟩, db)) =
        ((processWebhookAtomic env payment tf).1,
          db.set idx (processWebhookAtomic env payment tf).2) := by
    rw [htd]
    simp only [htruthy, Bool.true_eq_false, if_false]
    rw [if_neg hid]
    simp only [hfind, hget]
    rw [if_neg hsig]
  cases hd : dictGet eventData "data" with
  | none => simpa only [_handle_webhook_v2, hd] using hmain
  | some v =>
      cases v with
      | str s => exact absurd hd (hdata s)
      | null => simpa only [_handle_webhook_v2, hd] using hmain
      | bool b => simpa only [_handle_webhook_v2, hd] using hmain
      | num n => simpa only [_handle_webhook_v2, hd] using hmain
      | arr xs => simpa only [_handle_webhook_v2, hd] using hmain
      | obj fs => simpa only [_handle_webhook_v2, hd] using hmain

/-! ## Claim C1 -/

/-- C1 counterexample: a Confirmed payment that receives a Cancelled
notification is transitioned to Canceled by `_handle_payment_cancelled` — the
claim that the core applies no transition out of Confirmed/Refunded is false
at this input. -/
theorem c1_confirmed_cancelled_transitions :
    confirmedP.state = PaymentState.confirmed ∧
    (_handle_payment_cancelled confirmedP [("status", Json.str "cancel")]).state =
      PaymentState.canceled := by
  constructor
  · rfl
  · rfl

/-- C1 (amended): once Confirmed or Refunded, the Completed handler applies no
transition and never re-fires fulfilment, and the Pending handler only rewrites
info; but the Failed handler transitions the payment to Failed (it only guards
an already-Failed state) and the Cancelled and Expired handlers transition it
to Canceled (they only guard an already-Canceled state). -/
theorem c1_terminal_guard_only_in_completed_handler (host : Host) (now : String)
    (p : Payment) (data : Dict)
    (hterm : p.state = PaymentState.confirmed ∨ p.state = PaymentState.refunded) :
    _handle_payment_completed host now p data = p ∧
    _handle_payment_pending p data = { p with info := data } ∧
    (host.failThrows = false →
      _handle_payment_failed host p data =
        Except.ok { p with state := PaymentState.failed, info := data }) ∧
    _handle_payment_cancelled p data =
      { p with state := PaymentState.canceled, info := data } ∧
    _handle_payment_expired p data =
      { p with state := PaymentState.canceled, info := data } := by
  have hnc : p.state ≠ PaymentState.canceled := by
    rcases hterm with h1 | h1 <;> simp [h1]
  have hnf : p.state ≠ PaymentState.failed := by
    rcases hterm with h1 | h1 <;> simp [h1]
  have hncr : p.state ≠ PaymentState.created := by
    rcases hterm with h1 | h1 <;> simp [h1]
  refine ⟨?_, ?_, ?_, ?_, ?_⟩
  · unfold _handle_payment_completed
    rw [if_pos hterm]
  · unfold _handle_payment_pending
    rw [if_pos hncr]
  · intro hft
    unfold _handle_payment_failed
    rw [if_neg hnf, hft]
    simp
  · unfold _handle_payment_cancelled
    rw [if_neg hnc]
  · unfold _handle_payment_expired
    rw [if_neg hnc]

/-- C1 witness: the amended statement evaluated on a concrete Confirmed
payment. -/
theorem c1_terminal_guard_witness :
    _handle_payment_completed hostOk "T" confirmedP [("a", Json.str "b")] = confirmedP ∧
    _handle_payment_cancelled confirmedP [("a", Json.str "b")] =
      { confirmedP with state := PaymentState.canceled, info := [("a", Json.str "b")] } :=
  ⟨(c1_terminal_guard_only_in_completed_handler hostOk "T" confirmedP
      [("a", Json.str "b")] (Or.inl rfl)).1,
   (c1_terminal_guard_only_in_completed_handler hostOk "T" confirmedP
      [("a", Json.str "b")] (Or.inl rfl)).2.2.2.1⟩

/-! ## Claim C2 -/

/-- C2 counterexample: a repeat Completed notification on a Refunded payment,
applied through `process_webhook_payment_update`, re-fires the `confirm()`
fulfilment side effect and reports a state change (`true`) — the claim says it
is a no-op returning `false`. -/
theorem c2_refunded_repeat_completed_refires :
    refundedP.state = PaymentState.refunded ∧
    (process_webhook_payment_update hostOk refundedP [("status", Json.str "paid")]).1 = true ∧
    (process_webhook_payment_update hostOk refundedP [("status", Json.str "paid")]).2.confirmCalls =
      refundedP.confirmCalls + 1 := by
  refine ⟨rfl, rfl, rfl⟩

/-- C2 (amended): a repeat Completed notification is a no-op on a Confirmed or
Refunded payment in the views handler (no state change, no info change, no
fulfilment side effect) and a no-op returning `false` on a Confirmed payment
in `process_webhook_payment_update` — but `process_webhook_payment_update`
guards only the Confirmed state, so on a Refunded payment it calls `confirm()`
again and returns `true`. -/
theorem c2_duplicate_completed_noop (host : Host) (now : String) (p : Payment) (data : Dict) :
    (p.state = PaymentState.confirmed ∨ p.state = PaymentState.refunded →
      _handle_payment_completed host now p data = p) ∧
    (p.state = PaymentState.confirmed →
      webhookStatusOutcome (webhookStatusField data) = Outcome.completed →
      process_webhook_payment_update host p data = (false, p)) ∧
    (p.state = PaymentState.refunded →
      webhookStatusOutcome (webhookStatusField data) = Outcome.completed →
      host.confirmThrows = false →
      process_webhook_payment_update host p data =
        (true, hostConfirm { p with info := data })) := by
  refine ⟨?_, ?_, ?_⟩
  · intro hterm
    unfold _handle_payment_completed
    rw [if_pos hterm]
  · intro hst hout
    simp only [process_webhook_payment_update, hout]
    simp [hst]
  · intro hst hout hct
    simp only [process_webhook_payment_update, hout]
    simp [hst, hct]

/-- C2 witness: the amended statement evaluated on concrete Confirmed and
Refunded payments with a `paid` status payload. -/
theorem c2_duplicate_completed_witness :
    process_webhook_payment_update hostOk confirmedP [("status", Json.str "paid")] =
      (false, confirmedP) ∧
    process_webhook_payment_update hostOk refundedP [("status", Json.str "paid")] =
      (true, hostConfirm { refundedP with info := [("status", Json.str "paid")] }) :=
  ⟨(c2_duplicate_completed_noop hostOk "T" confirmedP [("status", Json.str "paid")]).2.1
      rfl (by rfl),
   (c2_duplicate_completed_noop hostOk "T" refundedP [("status", Json.str "paid")]).2.2
      rfl (by rfl) rfl⟩

/-! ## Claim C3 -/

/-- C3: a v2 webhook with an absent or empty `X-Signature` header is never
rejected for its signature: the dispatcher proceeds straight to reconciling
the located payment (its result is exactly the reconcile step's result, for
every environment, so in particular for every configured webhook secret),
while the verifier itself would return `false` for an empty signature whenever
a secret is configured. -/
theorem c3_empty_signature_skips_validation
    (env : Env) (db : List Payment) (xIV eventBody : String) (fuel : Nat)
    (eventData tf : Dict) (idx : Nat) (payment : Payment)
    (hdata : ∀ s, dictGet eventData "data" ≠ some (Json.str s))
    (htd : extractTransactionData eventData = some (Json.obj tf))
    (htruthy : jTruthy (Json.obj tf) = true)
    (hids : oTruthy (extractIds tf).1 = true ∨ oTruthy (extractIds tf).2 = true)
    (hfind : _find_payment_by_identifiers db (extractIds tf).1 (extractIds tf).2 = some idx)
    (hget : db.get? idx = some payment) :
    _handle_webhook_v2 env db "" xIV (fuel + 1) eventData eventBody =
      ((processWebhookAtomic env payment tf).1,
        db.set idx (processWebhookAtomic env payment tf).2) ∧
    (env.webhookSecret ≠ "" → _validate_webhook_signature env eventBody "" = false) := by
  constructor
  · exact webhookV2_dispatch_reduction env db xIV eventBody fuel eventData tf idx payment
      hdata htd htruthy hids hfind hget
  · intro hsec
    unfold _validate_webhook_signature
    rw [if_neg hsec]
    simp

/-- C3 witness: concrete dispatch of an unsigned v2 webhook against a one
payment database with a configured secret, landing in the reconcile step. -/
theorem c3_empty_signature_witness :
    _handle_webhook_v2 baseEnv [pendingP] "" "" 1
      [("identifier", Json.str "ABC12-P-3"), ("status", Json.str "zz")] "body" =
      ((processWebhookAtomic baseEnv pendingP
          [("identifier", Json.str "ABC12-P-3"), ("status", Json.str "zz")]).1,
        [pendingP].set 0 (processWebhookAtomic baseEnv pendingP
          [("identifier", Json.str "ABC12-P-3"), ("status", Json.str "zz")]).2) ∧
    _validate_webhook_signature baseEnv "body" "" = false :=
  ⟨(c3_empty_signature_skips_validation baseEnv [pendingP] "" "body" 0
      [("identifier", Json.str "ABC12-P-3"), ("status", Json.str "zz")]
      [("identifier", Json.str "ABC12-P-3"), ("status", Json.str "zz")] 0 pendingP
      (fun s h => by cases h) rfl rfl (Or.inl rfl) rfl rfl).1,
   (c3_empty_signature_skips_validation baseEnv [pendingP] "" "body" 0
      [("identifier", Json.str "ABC12-P-3"), ("status", Json.str "zz")]
      [("identifier", Json.str "ABC12-P-3"), ("status", Json.str "zz")] 0 pendingP
      (fun s h => by cases h) rfl rfl (Or.inl rfl) rfl rfl).2
      (by decide)⟩

/-! ## Claim C4 -/

/-- Hexadecimal digit characters are base64-alphabet characters and never the
padding character. -/
theorem hexDigit_in_alphabet (n : Nat) :
    (b64Index (hexDigit n)).isSome = true ∧ hexDigit n ≠ '=' := by
  unfold hexDigit
  have hk : n % 16 < 16 := Nat.mod_lt _ (by omega)
  set k := n % 16 with hkdef
  interval_cases k <;> exact ⟨by decide, by decide⟩

/-- Every character of a hex encoding is a base64-alphabet character that is
not padding. -/
theorem hexEncode_chars (bs : List Nat) :
    ∀ c ∈ hexEncode bs, (b64Index c).isSome = true ∧ c ≠ '=' := by
  intro c hc
  unfold hexEncode at hc
  rcases List.mem_flatMap.mp hc with ⟨b, _, hcb⟩
  simp only [List.mem_cons, List.not_mem_nil, or_false] at hcb
  rcases hcb with h | h
  · exact h ▸ hexDigit_in_alphabet (b / 16)
  · exact h ▸ hexDigit_in_alphabet b

/-- Length of a hex encoding: two characters per byte. -/
theorem hexEncode_length (bs : List Nat) : (hexEncode bs).length = 2 * bs.length := by
  induction bs with
  | nil => rfl
  | cons b rest ih =>
      unfold hexEncode at ih ⊢
      simp [ih]
      omega

/-- Length of the base64 byte decoding of full quads: three bytes per four
values. -/
theorem b64Bytes_length : ∀ l : List Nat, l.length % 4 = 0 →
    (b64Bytes l).length = 3 * (l.length / 4)
  | [], _ => by simp [b64Bytes]
  | [_], h => by simp at h
  | [_, _], h => by simp at h
  | [_, _, _], h => by simp at h
  | _ :: _ :: _ :: _ :: rest, h => by
      have hr : rest.length % 4 = 0 := by
        simp only [List.length_cons] at h
        omega
      have ih := b64Bytes_length rest hr
      simp only [b64Bytes, List.length_cons, ih]
      omega

/-- Lists of different lengths are never `BEq`-equal. -/
theorem beq_false_of_length_ne (l1 l2 : List Nat) (h : l1.length ≠ l2.length) :
    (l1 == l2) = false := by
  cases hb : l1 == l2
  · rfl
  · exact absurd (congrArg List.length (eq_of_beq hb)) h

/-- C4: the signature verifier only ever base64-decodes the header — there is
no hexadecimal fallback. A correct HMAC-SHA256 digest presented in hex (64
lowercase hex characters) happens to decode as base64, but to 48 bytes, which
can never equal the 32-byte digest, so every hex-encoded signature is
rejected. This contradicts the claim (and the repository's own unit test
`tests/test_payment.py::test_webhook_signature_validation`, which feeds
`hexdigest()` output to the verifier and asserts acceptance). -/
theorem c4_hex_digest_always_rejected (env : Env) (payload : String) (digest : List Nat)
    (hsec : env.webhookSecret ≠ "")
    (hhmac : ∀ key msg, (env.hmacSha256 key msg).length = 32)
    (hdig : digest.length = 32) :
    _validate_webhook_signature env payload ((hexEncode digest).asString) = false := by
  have hlen : (hexEncode digest).length = 64 := by rw [hexEncode_length, hdig]
  have hne : (hexEncode digest).asString ≠ "" := by
    intro hc
    have : (hexEncode digest) = [] := congrArg String.toList hc
    rw [this] at hlen
    simp at hlen
  unfold _validate_webhook_signature
  rw [if_neg hsec, if_neg hne]
  have htl : ((hexEncode digest).asString).toList = hexEncode digest := rfl
  have hfilter :
      ((hexEncode digest).asString).toList.filter
        (fun c => (b64Index c).isSome || c == '=') = hexEncode digest := by
    rw [htl]
    exact List.filter_eq_self.mpr (fun c hc => by simp [(hexEncode_chars digest c hc).1])
  have htw : (hexEncode digest).takeWhile (fun c => c != '=') = hexEncode digest :=
    List.takeWhile_eq_self_iff.mpr (fun c hc => by simp [(hexEncode_chars digest c hc).2])
  have hdecode :
      b64decode ((hexEncode digest).asString) =
        some (b64Bytes ((hexEncode digest).map (fun c => (b64Index c).getD 0))) := by
    simp only [b64decode]
    rw [hfilter, htw, hlen]
    norm_num
  rw [hdecode]
  have hreclen :
      (b64Bytes ((hexEncode digest).map (fun c => (b64Index c).getD 0))).length = 48 := by
    rw [b64Bytes_length _ (by rw [List.length_map, hlen])]
    rw [List.length_map, hlen]
  exact beq_false_of_length_ne _ _ (by rw [hhmac, hreclen]; omega)

/-- C4 witness: a concrete 32-byte digest in hex rejected under a configured
secret. -/
theorem c4_hex_digest_witness :
    _validate_webhook_signature baseEnv "\x7b\"test\": \"data\"\x7d"
      ((hexEncode (List.replicate 32 0)).asString) = false :=
  c4_hex_digest_always_rejected baseEnv "\x7b\"test\": \"data\"\x7d" (List.replicate 32 0)
    (by decide) (fun key msg => by simp [baseEnv]) (by simp)

/-! ## Claim C5 -/

/-- C5 counterexample: when `confirm()` raises during a Completed reconcile,
the dispatcher answers 200 (not 500) and the payment is left half-updated —
the info write (merged payload plus confirmation stamp) persisted while the
state write never happened. -/
theorem c5_confirm_exception_yields_200_half_update :
    _handle_webhook_v2 envConfirmRaises [pendingP] "" "" 1
      [("identifier", Json.str "ABC12-P-3"), ("status", Json.str "Paid")] "body" =
      (⟨200, "OK"⟩,
        [⟨"ABC12", 3, "eupago_mbway", PaymentState.pending,
          [("referencia", Json.str "217404"), ("identifier", Json.str "ABC12-P-3"),
           ("status", Json.str "Paid"),
           ("webhook_confirmed_at", Json.str "2025-09-26T01:07:55")], 0⟩]) := by
  rfl

/-- C5 (amended): an exception escaping the non-Completed handlers (here the
host's `fail()`) makes the dispatcher answer 500 and the transaction rolls the
payment back, so nothing persists; but an exception inside the Completed
handler is swallowed there, the dispatcher answers 200, and the already-saved
info write (merged payload plus `webhook_confirmed_at` stamp) persists without
the state write. -/
theorem c5_reconcile_exception_behaviour
    (env : Env) (db : List Payment) (xIV eventBody : String) (fuel : Nat)
    (eventData tf : Dict) (idx : Nat) (payment : Payment)
    (hdata : ∀ s, dictGet eventData "data" ≠ some (Json.str s))
    (htd : extractTransactionData eventData = some (Json.obj tf))
    (htruthy : jTruthy (Json.obj tf) = true)
    (hids : oTruthy (extractIds tf).1 = true ∨ oTruthy (extractIds tf).2 = true)
    (hfind : _find_payment_by_identifiers db (extractIds tf).1 (extractIds tf).2 = some idx)
    (hget : db.get? idx = some payment) :
    (∀ s, dictGet tf "status" = some (Json.str s) →
      ["error", "failed", "failure"].contains (strToLower s) = true →
      payment.state ≠ PaymentState.failed →
      env.host.failThrows = true →
      _handle_webhook_v2 env db "" xIV (fuel + 1) eventData eventBody =
        (⟨500, "Processing error"⟩, db)) ∧
    (∀ s, dictGet tf "status" = some (Json.str s) →
      (strToLower s = "paid" ∨ strToLower s = "success") →
      payment.state ≠ PaymentState.confirmed →
      payment.state ≠ PaymentState.refunded →
      env.host.confirmThrows = true →
      _handle_webhook_v2 env db "" xIV (fuel + 1) eventData eventBody =
        (⟨200, "OK"⟩,
          db.set idx { payment with
            info := dictSet (dictMerge payment.info tf) "webhook_confirmed_at"
              (Json.str env.nowIso) })) := by
  have hred := webhookV2_dispatch_reduction env db xIV eventBody fuel eventData tf idx payment
    hdata htd htruthy hids hfind hget
  constructor
  · intro s hs hcont hnf hft
    have hnp : ¬(strToLower s = "paid" ∨ strToLower s = "success") := by
      simp only [List.contains_cons, List.contains_nil, Bool.or_eq_true,
        Bool.or_eq_false_iff, beq_iff_eq] at hcont
      rcases hcont with h | h | h
      · simp [h]
      · simp [h]
      · rcases h with h | h
        · simp [h]
        · cases h
    have hatomic : processWebhookAtomic env payment tf = (⟨500, "Processing error"⟩, payment) := by
      simp only [processWebhookAtomic, hs]
      rw [if_neg hnp, if_pos hcont]
      unfold _handle_payment_failed
      rw [if_neg hnf, hft]
      simp
    rw [hred, hatomic, list_set_same db idx payment hget]
  · intro s hs hps hnc hnr hct
    have hatomic : processWebhookAtomic env payment tf =
        (⟨200, "OK"⟩, { payment with
          info := dictSet (dictMerge payment.info tf) "webhook_confirmed_at"
            (Json.str env.nowIso) }) := by
      simp only [processWebhookAtomic, hs]
      rw [if_pos hps]
      unfold _handle_payment_completed
      rw [if_neg (by rw [not_or]; exact ⟨hnc, hnr⟩), hct]
      simp
    rw [hred, hatomic]

/-- C5 witness: the amended statement evaluated on concrete webhooks — a
failing `fail()` yields 500 with the database unchanged, a failing `confirm()`
yields 200 with the stamped info persisted. -/
theorem c5_reconcile_exception_witness :
    _handle_webhook_v2 envFailRaises [pendingP] "" "" 1
      [("identifier", Json.str "ABC12-P-3"), ("status", Json.str "failed")] "body" =
      (⟨500, "Processing error"⟩, [pendingP]) ∧
    _handle_webhook_v2 envConfirmRaises [pendingP] "" "" 1
      [("identifier", Json.str "ABC12-P-3"), ("status", Json.str "Paid")] "body" =
      (⟨200, "OK"⟩,
        [pendingP].set 0 { pendingP with
          info := dictSet (dictMerge pendingP.info
              [("identifier", Json.str "ABC12-P-3"), ("status", Json.str "Paid")])
            "webhook_confirmed_at" (Json.str envConfirmRaises.nowIso) }) :=
  ⟨(c5_reconcile_exception_behaviour envFailRaises [pendingP] "" "body" 0
      [("identifier", Json.str "ABC12-P-3"), ("status", Json.str "failed")]
      [("identifier", Json.str "ABC12-P-3"), ("status", Json.str "failed")] 0 pendingP
      (fun s h => by cases h) rfl rfl (Or.inl rfl) rfl rfl).1
      "failed" rfl (by decide) (by decide) rfl,
   (c5_reconcile_exception_behaviour envConfirmRaises [pendingP] "" "body" 0
      [("identifier", Json.str "ABC12-P-3"), ("status", Json.str "Paid")]
      [("identifier", Json.str "ABC12-P-3"), ("status", Json.str "Paid")] 0 pendingP
      (fun s h => by cases h) rfl rfl (Or.inl rfl) rfl rfl).2
      "Paid" rfl (Or.inl rfl) (by decide) (by decide) rfl⟩

/-! ## Claim C6 -/

/-- C6 counterexample: a Cancelled update replaces the payment's info with the
new payload instead of merging — the pre-existing `referencia` key, absent
from the payload, is lost. -/
theorem c6_cancelled_update_replaces_info :
    dictGet pendingP.info "referencia" = some (Json.str "217404") ∧
    (_handle_payment_cancelled pendingP [("status", Json.str "cancel")]).info =
      [("status", Json.str "cancel")] ∧
    dictGet (_handle_payment_cancelled pendingP [("status", Json.str "cancel")]).info
      "referencia" = none := by
  refine ⟨rfl, rfl, rfl⟩

/-- C6 (amended): only the Completed handler merges the payload into the
existing info — a key present before and absent from the payload keeps its old
value (except the `webhook_confirmed_at` stamp key, which the handler always
overwrites on a fresh confirmation) — while the Failed, Cancelled, Expired,
Pending and Unknown updates replace info with the new payload outright. -/
theorem c6_merge_only_in_completed_handler (host : Host) (now : String) (p : Payment)
    (data : Dict) (k : String)
    (hk : dictGet data k = none) (hstamp : k ≠ "webhook_confirmed_at") :
    dictGet (_handle_payment_completed host now p data).info k = dictGet p.info k ∧
    (p.state ≠ PaymentState.confirmed → p.state ≠ PaymentState.refunded →
      dictGet (_handle_payment_completed host now p data).info "webhook_confirmed_at" =
        some (Json.str now)) ∧
    (p.state ≠ PaymentState.canceled →
      (_handle_payment_cancelled p data).info = data) ∧
    (p.state ≠ PaymentState.canceled →
      (_handle_payment_expired p data).info = data) ∧
    (p.state ≠ PaymentState.created →
      (_handle_payment_pending p data).info = data) ∧
    (host.failThrows = false → p.state ≠ PaymentState.failed →
      _handle_payment_failed host p data =
        Except.ok { p with state := PaymentState.failed, info := data }) := by
  have hmerge : ∀ a : Dict, dictGet (dictSet (dictMerge a data) "webhook_confirmed_at"
      (Json.str now)) k = dictGet a k := by
    intro a
    rw [dictGet_dictSet_ne _ _ _ _ hstamp,
      dictGet_dictMerge_of_not_mem a data k (dictGet_none_entries data k hk)]
  refine ⟨?_, ?_, ?_, ?_, ?_, ?_⟩
  · unfold _handle_payment_completed
    by_cases hterm : p.state = PaymentState.confirmed ∨ p.state = PaymentState.refunded
    · rw [if_pos hterm]
    · rw [if_neg hterm]
      cases host.confirmThrows <;> simp [hostConfirm, hmerge]
  · intro hnc hnr
    unfold _handle_payment_completed
    rw [if_neg (by rw [not_or]; exact ⟨hnc, hnr⟩)]
    cases host.confirmThrows <;> simp [hostConfirm, dictGet_dictSet_self]
  · intro hnc
    unfold _handle_payment_cancelled
    rw [if_neg hnc]
  · intro hnc
    unfold _handle_payment_expired
    rw [if_neg hnc]
  · intro hncr
    unfold _handle_payment_pending
    rw [if_pos hncr]
  · intro hft hnf
    unfold _handle_payment_failed
    rw [if_neg hnf, hft]
    simp

/-- C6 witness: the amended statement on a concrete Created payment, a payload
lacking the `k` key, showing preservation in the Completed handler and
replacement in the Cancelled handler. -/
theorem c6_merge_only_witness :
    dictGet (_handle_payment_completed hostOk "T" createdP [("x", Json.str "y")]).info "k" =
      dictGet createdP.info "k" ∧
    (_handle_payment_cancelled createdP [("x", Json.str "y")]).info = [("x", Json.str "y")] :=
  ⟨(c6_merge_only_in_completed_handler hostOk "T" createdP [("x", Json.str "y")] "k"
      rfl (by decide)).1,
   (c6_merge_only_in_completed_handler hostOk "T" createdP [("x", Json.str "y")] "k"
      rfl (by decide)).2.2.1 (by decide)⟩

/-! ## Claim C7 -/

/-- C7 counterexample: the views pending handler does nothing at all on a
payment in the Created state — the info is not updated with the raw payload
and the state does not advance to Pending. -/
theorem c7_pending_handler_ignores_created :
    createdP.state = PaymentState.created ∧
    _handle_payment_pending createdP [("status", Json.str "Pending")] = createdP := by
  exact ⟨rfl, rfl⟩

/-- C7 (amended): in `process_webhook_payment_update` a Pending-family status
stores the payload and advances only Created→Pending (returning `true` exactly
then), and an Unknown status stores the payload and never changes state — even
from Created; the views pending handler instead stores the payload only when
the state is not Created and never changes state, doing nothing at all on a
Created payment. -/
theorem c7_pending_unknown_behaviour (host : Host) (p : Payment) (data : Dict) :
    (webhookStatusOutcome (webhookStatusField data) = Outcome.pending →
      (p.state = PaymentState.created →
        process_webhook_payment_update host p data =
          (true, { p with state := PaymentState.pending, info := data })) ∧
      (p.state ≠ PaymentState.created →
        process_webhook_payment_update host p data = (false, { p with info := data }))) ∧
    (webhookStatusOutcome (webhookStatusField data) = Outcome.unknown →
      process_webhook_payment_update host p data = (false, { p with info := data })) ∧
    (p.state = PaymentState.created → _handle_payment_pending p data = p) ∧
    (p.state ≠ PaymentState.created →
      _handle_payment_pending p data = { p with info := data }) := by
  refine ⟨?_, ?_, ?_, ?_⟩
  · intro hout
    constructor
    · intro hst
      simp only [process_webhook_payment_update, hout]
      simp [hst]
    · intro hst
      simp only [process_webhook_payment_update, hout]
      simp [hst]
  · intro hout
    simp only [process_webhook_payment_update, hout]
  · intro hst
    unfold _handle_payment_pending
    simp [hst]
  · intro hst
    unfold _handle_payment_pending
    rw [if_pos hst]

/-- C7 witness: the amended statement on concrete Created and Pending payments
with Pending and unknown statuses. -/
theorem c7_pending_unknown_witness :
    process_webhook_payment_update hostOk createdP [("status", Json.str "Pending")] =
      (true, { createdP with
                state := PaymentState.pending,
                info := [("status", Json.str "Pending")] }) ∧
    process_webhook_payment_update hostOk createdP [("status", Json.str "whatever")] =
      (false, { createdP with info := [("status", Json.str "whatever")] }) ∧
    _handle_payment_pending pendingP [("status", Json.str "Pending")] =
      { pendingP with info := [("status", Json.str "Pending")] } :=
  ⟨((c7_pending_unknown_behaviour hostOk createdP [("status", Json.str "Pending")]).1
      (by rfl)).1 rfl,
   (c7_pending_unknown_behaviour hostOk createdP [("status", Json.str "whatever")]).2.1
      (by rfl),
   (c7_pending_unknown_behaviour hostOk pendingP [("status", Json.str "Pending")]).2.2.2
      (by decide)⟩

/-! ## Claim C8 -/

/-- C8 counterexample: the spelling `Cancelled` (claimed to map to Cancelled)
and the tokens `Expired`/`timeout` (claimed to map to Expired) all fall
through to Unknown — there is no Expired group at all — and an `Expired`
status leaves a pending payment's state untouched. -/
theorem c8_token_table_mismatch :
    webhookStatusOutcome (some (Json.str "Cancelled")) = Outcome.unknown ∧
    webhookStatusOutcome (some (Json.str "Expired")) = Outcome.unknown ∧
    webhookStatusOutcome (some (Json.str "timeout")) = Outcome.unknown ∧
    (process_webhook_payment_update hostOk pendingP [("status", Json.str "Expired")]).2.state =
      PaymentState.pending := by
  refine ⟨rfl, rfl, rfl, rfl⟩

/-- C8 (amended): `process_webhook_payment_update`'s mapper is case-sensitive
and total, with groups Success/Sucesso/completed/paid → Completed,
Failed/Falhado/failed/error → Failed, Pending/Pendente/pending/processing →
Pending, Canceled/Cancelado/canceled/cancelled → Cancelled, and no Expired
group; every other string — including `Cancelled`, `Expired`, `Expirado`,
`timeout` and any non-string status value — maps to Unknown without raising. -/
theorem c8_status_mapper_table (s : String) (v : Option Json) :
    (s = "Success" ∨ s = "Sucesso" ∨ s = "completed" ∨ s = "paid" →
      webhookStatusOutcome (some (Json.str s)) = Outcome.completed) ∧
    (s = "Failed" ∨ s = "Falhado" ∨ s = "failed" ∨ s = "error" →
      webhookStatusOutcome (some (Json.str s)) = Outcome.failed) ∧
    (s = "Pending" ∨ s = "Pendente" ∨ s = "pending" ∨ s = "processing" →
      webhookStatusOutcome (some (Json.str s)) = Outcome.pending) ∧
    (s = "Canceled" ∨ s = "Cancelado" ∨ s = "canceled" ∨ s = "cancelled" →
      webhookStatusOutcome (some (Json.str s)) = Outcome.cancelled) ∧
    (s ∉ successStatuses → s ∉ failedStatuses →
      s ∉ pendingStatuses → s ∉ canceledStatuses →
      webhookStatusOutcome (some (Json.str s)) = Outcome.unknown) ∧
    (statusToken v = none → webhookStatusOutcome v = Outcome.unknown) := by
  refine ⟨?_, ?_, ?_, ?_, ?_, ?_⟩
  · rintro (h | h | h | h) <;> subst h <;> rfl
  · rintro (h | h | h | h) <;> subst h <;> rfl
  · rintro (h | h | h | h) <;> subst h <;> rfl
  · rintro (h | h | h | h) <;> subst h <;> rfl
  · intro h1 h2 h3 h4
    unfold webhookStatusOutcome statusToken
    simp [h1, h2, h3, h4]
  · intro hv
    unfold webhookStatusOutcome
    rw [hv]

/-- C8 witness: concrete tokens through the mapper, including a case-mismatch
falling to Unknown. -/
theorem c8_status_mapper_witness :
    webhookStatusOutcome (some (Json.str "Sucesso")) = Outcome.completed ∧
    webhookStatusOutcome (some (Json.str "SUCESSO")) = Outcome.unknown ∧
    webhookStatusOutcome (some (Json.num 5)) = Outcome.unknown :=
  ⟨(c8_status_mapper_table "Sucesso" none).1 (Or.inr (Or.inl rfl)),
   (c8_status_mapper_table "SUCESSO" none).2.2.2.2.1 (by decide) (by decide) (by decide)
      (by decide),
   (c8_status_mapper_table "" (some (Json.num 5))).2.2.2.2.2 (by rfl)⟩

/-! ## Claim C9 -/

/-- C9 counterexample: on the first (SHA-256-derived key) attempt, decryption
reports success for a result that is not JSON-shaped at all — the ASCII string
`hello` is returned even though the operational JSON test fails on it. -/
theorem c9_nonjson_decrypt_succeeds :
    _decrypt_webhook_data envHello zeroBlockB64 zeroBlockB64 "test_secret" = some "hello" ∧
    jsonLike "hello" = false := by
  refine ⟨rfl, rfl⟩

/-- C9 (amended): when decryption fails overall the dispatcher rejects with
HTTP 400 `Decryption failed`; but success is not limited to JSON-shaped
output: on the first key-derivation attempt any UTF-8-decodable plaintext is
returned as success, and only the second and third attempts (direct key and
IV-as-key) require the trimmed result to start and end with braces (bracketed
arrays are never accepted by those tests). -/
theorem c9_decryption_operational_shape :
    (∀ (env : Env) (db : List Payment) (xSig xIV eventBody : String) (fuel : Nat)
        (eventData : Dict) (enc : String),
      dictGet eventData "data" = some (Json.str enc) →
      _decrypt_webhook_data env enc xIV env.chainSecret = none →
      _handle_webhook_v2 env db xSig xIV (fuel + 1) eventData eventBody =
        (⟨400, "Decryption failed"⟩, db)) ∧
    (∀ (env : Env) (enc iv secret : String) (ivB ct u : List Nat) (s : String),
      iv ≠ "" → b64decode iv = some ivB → secret ≠ "" → b64decode enc = some ct →
      (env.sha256 (utf8Encode secret)).length = 32 → ivB.length = 16 →
      ct.length % 16 = 0 →
      env.aesCbcDecrypt (env.sha256 (utf8Encode secret)) ivB ct ≠ [] →
      pkcs7Unpad (env.aesCbcDecrypt (env.sha256 (utf8Encode secret)) ivB ct) = some u →
      utf8Decode u = some s →
      _decrypt_webhook_data env enc iv secret = some s) ∧
    (∀ (env : Env) (keyDirect ivB ct : List Nat) (s : String),
      decryptAttempts23 env keyDirect ivB ct = some s → jsonLike s = true) := by
  refine ⟨?_, ?_, ?_⟩
  · intro env db xSig xIV eventBody fuel eventData enc hdata hdec
    simp only [_handle_webhook_v2, hdata, hdec]
  · intro env enc iv secret ivB ct u s hiv hivdec hsec hencdec hklen hivlen hctlen hne
      hunpad hdecode
    unfold _decrypt_webhook_data
    rw [if_neg hiv]
    simp only [hivdec]
    rw [if_neg hsec]
    simp only [hencdec]
    have haes : aesTry env (env.sha256 (utf8Encode secret)) ivB ct =
        some (env.aesCbcDecrypt (env.sha256 (utf8Encode secret)) ivB ct) := by
      unfold aesTry
      rw [if_pos (by simp [hklen, hivlen, hctlen])]
    simp only [haes]
    rw [if_neg (by simpa [List.isEmpty_iff] using hne)]
    simp only [hunpad, hdecode]
  · intro env keyDirect ivB ct s h
    have hguard : ∀ s' : String,
        (if jsonLike s' = true then some s' else none) = some s → jsonLike s = true := by
      intro s' hg
      by_cases hj : jsonLike s'
      · rw [if_pos hj] at hg
        cases hg
        exact hj
      · rw [if_neg hj] at hg
        cases hg
    have hthird : decryptAttempt3 env ivB ct = some s → jsonLike s = true := by
      intro h3
      simp only [decryptAttempt3] at h3
      cases he : aesTry env (to32 ivB) ivB ct with
      | none => simp only [he] at h3; cases h3
      | some dp3 =>
          simp only [he] at h3
          by_cases hemp : dp3.isEmpty = true
          · rw [if_pos hemp] at h3
            cases h3
          · rw [if_neg hemp] at h3
            cases hd : utf8Decode ((pkcs7Unpad dp3).getD dp3) with
            | none => simp only [hd] at h3; cases h3
            | some s3 =>
                simp only [hd] at h3
                exact hguard s3 h3
    simp only [decryptAttempts23] at h
    cases he : aesTry env keyDirect ivB ct with
    | none => simp only [he] at h; cases h
    | some dp2 =>
        simp only [he] at h
        by_cases hemp : dp2.isEmpty = true
        · rw [if_pos hemp] at h
          cases h
        · rw [if_neg hemp] at h
          cases hd : utf8Decode ((pkcs7Unpad dp2).getD dp2) with
          | none =>
              simp only [hd] at h
              exact hthird h
          | some s2 =>
              simp only [hd] at h
              by_cases hj : jsonLike s2 = true
              · simp only [hj, if_true, Option.some.injEq] at h
                rw [← h]
                exact hj
              · rw [if_neg hj] at h
                exact hthird h

/-- C9 witness: missing IV makes decryption fail and the dispatcher answer
400; a non-JSON plaintext is accepted on the first attempt; a successful
second-attempt decryption is JSON-shaped. -/
theorem c9_decryption_witness :
    _handle_webhook_v2 baseEnv [pendingP] "" "" 1 [("data", Json.str "x")] "body" =
      (⟨400, "Decryption failed"⟩, [pendingP]) ∧
    _decrypt_webhook_data envHello zeroBlockB64 zeroBlockB64 "s2" = some "hello" ∧
    jsonLike "\x7b\x7d" = true :=
  ⟨c9_decryption_operational_shape.1 baseEnv [pendingP] "" "" "body" 0
      [("data", Json.str "x")] "x" rfl rfl,
   c9_decryption_operational_shape.2.1 envHello zeroBlockB64 zeroBlockB64 "s2"
      (List.replicate 16 0) (List.replicate 16 0) [104, 101, 108, 108, 111] "hello"
      (by decide) (by decide) (by decide) (by decide) (by decide) (by decide) (by decide)
      (by decide) (by decide) (by rfl),
   c9_decryption_operational_shape.2.2 envBrace (to32 (utf8Encode "k"))
      (List.replicate 16 0) (List.replicate 16 0) "\x7b\x7d" (by rfl)⟩

/-! ## Claim C10 -/

/-- C10: an inbound webhook, v1 or v2, whose identifier and reference resolve
to no local payment is answered HTTP 200 with body `Payment not found` and the
payment database is returned unchanged — no payment's state or info is
touched. -/
theorem c10_not_found_soft_fail
    (env : Env) (db : List Payment) (xSig xIV eventBody : String) (fuel : Nat)
    (eventData tf : Dict) (params : List (String × String)) :
    ((∀ s, dictGet eventData "data" ≠ some (Json.str s)) →
      extractTransactionData eventData = some (Json.obj tf) →
      jTruthy (Json.obj tf) = true →
      (oTruthy (extractIds tf).1 = true ∨ oTruthy (extractIds tf).2 = true) →
      _find_payment_by_identifiers db (extractIds tf).1 (extractIds tf).2 = none →
      _handle_webhook_v2 env db xSig xIV (fuel + 1) eventData eventBody =
        (⟨200, "Payment not found"⟩, db)) ∧
    ((["referencia", "identificador", "valor"].filter
        (fun k => !(params.any (fun kv => kv.1 == k)))).isEmpty = true →
      _find_payment_by_identifiers db
        ((params.find? (fun kv => kv.1 == "identificador")).map (fun kv => Json.str kv.2))
        ((params.find? (fun kv => kv.1 == "referencia")).map (fun kv => Json.str kv.2)) =
          none →
      _handle_webhook_v1 env db params = (⟨200, "Payment not found"⟩, db)) := by
  constructor
  · intro hdata htd htruthy hids hfind
    have hid : ¬(oTruthy (extractIds tf).1 = false ∧ oTruthy (extractIds tf).2 = false) := by
      rcases hids with h | h <;> simp [h]
    have hmain :
        (match extractTransactionData eventData with
          | none => ((⟨400, "Missing transaction data"⟩ : HttpResp), db)
          | some td =>
            if jTruthy td = false then (⟨400, "Missing transaction data"⟩, db)
            else
              match td with
              | Json.obj tf =>
                  let ids := extractIds tf
                  if oTruthy ids.1 = false ∧ oTruthy ids.2 = false then
                    (⟨400, "Missing identifier and reference"⟩, db)
                  else
                    match _find_payment_by_identifiers db ids.1 ids.2 with
                    | none => (⟨200, "Payment not found"⟩, db)
                    | some idx =>
                        match db.get? idx with
                        | none => (⟨500, "Internal error"⟩, db)
                        | some payment =>
                            if xSig ≠ "" ∧
                                _validate_webhook_signature env eventBody xSig = false ∧
                                env.debugMode = false then
                              (⟨400, "Invalid signature"⟩, db)
                            else
                              let rp := processWebhookAtomic env payment tf
                              (rp.1, db.set idx rp.2)
              | _ => (⟨500, "Internal error"⟩, db)) =
          ((⟨200, "Payment not found"⟩ : HttpResp), db) := by
      rw [htd]
      simp only [htruthy, Bool.true_eq_false, if_false]
      rw [if_neg hid]
      simp only [hfind]
    cases hd : dictGet eventData "data" with
    | none => simpa only [_handle_webhook_v2, hd] using hmain
    | some v =>
        cases v with
        | str s => exact absurd hd (hdata s)
        | null => simpa only [_handle_webhook_v2, hd] using hmain
        | bool b => simpa only [_handle_webhook_v2, hd] using hmain
        | num n => simpa only [_handle_webhook_v2, hd] using hmain
        | arr xs => simpa only [_handle_webhook_v2, hd] using hmain
        | obj fs => simpa only [_handle_webhook_v2, hd] using hmain
  · intro hmiss hfind
    unfold _handle_webhook_v1
    rw [if_neg (by simp [hmiss])]
    simp only [hfind]

/-- C10 witness: a v2 webhook and a v1 webhook naming an unknown identifier
against a one-payment database are both soft-failed with 200 and the database
unchanged. -/
theorem c10_not_found_witness :
    _handle_webhook_v2 baseEnv [pendingP] "sig" "" 1
      [("identifier", Json.str "ZZZZZ-P-9")] "body" =
      (⟨200, "Payment not found"⟩, [pendingP]) ∧
    _handle_webhook_v1 baseEnv [pendingP]
      [("referencia", "999999"), ("identificador", "ZZZZZ-P-9"), ("valor", "10.00")] =
      (⟨200, "Payment not found"⟩, [pendingP]) :=
  ⟨(c10_not_found_soft_fail baseEnv [pendingP] "sig" "" "body" 0
      [("identifier", Json.str "ZZZZZ-P-9")] [("identifier", Json.str "ZZZZZ-P-9")] []).1
      (fun s h => by cases h) rfl rfl (Or.inl rfl) (by rfl),
   (c10_not_found_soft_fail baseEnv [pendingP] "sig" "" "body" 0 [] []
      [("referencia", "999999"), ("identificador", "ZZZZZ-P-9"), ("valor", "10.00")]).2
      (by decide) (by rfl)⟩

end EuPago
